import Mathlib

/-!
Verification of the Mailtrain HTTP API client (`mailtrain/api.py`).

Python strings are modelled as lists of characters (`Str`), decoded JSON
bodies as the inductive type `Json`, request payloads as association
lists of `PyVal`, and the HTTP layer as an oracle mapping each request
to a response.  Every client operation returns the list of HTTP requests
it issued together with its result, so that "raises before any network
call" is the statement that the request trace is empty.
-/

abbrev Str := List Char

/-- Character class of the local part of the `validate_email` regex:
`[a-zA-Z0-9_.+-]`. -/
def isLocalChar (c : Char) : Bool :=
  c.isAlpha || c.isDigit || c == '_' || c == '.' || c == '+' || c == '-'

/-- Character class of the first domain label: `[a-zA-Z0-9-]`. -/
def isDomainChar (c : Char) : Bool :=
  c.isAlpha || c.isDigit || c == '-'

/-- Character class of the domain part after its first dot: `[a-zA-Z0-9-.]`. -/
def isTailChar (c : Char) : Bool :=
  c.isAlpha || c.isDigit || c == '-' || c == '.'

/-- The regex piece `\.[a-zA-Z0-9-.]+$`: a dot, then a nonempty tail. -/
def dotTail : Str → Bool
  | [] => false
  | c :: tail => c == '.' && (!tail.isEmpty) && tail.all isTailChar

/-- The regex piece after the `@`: `[a-zA-Z0-9-]+\.[a-zA-Z0-9-.]+$`.
Greedy scanning is exact here because `.` is not a domain-label character. -/
def domainMatches (d : Str) : Bool :=
  (!(d.takeWhile isDomainChar).isEmpty) && dotTail (d.dropWhile isDomainChar)

/-- The regex from the `@` on: the first non-local character must be `@`. -/
def atDomain : Str → Bool
  | [] => false
  | c :: d => c == '@' && domainMatches d

/-- The `validate_email` regex
`^[a-zA-Z0-9_.+-]+@[a-zA-Z0-9-]+\.[a-zA-Z0-9-.]+$`.
Greedy scanning is exact because `@` is not a local character. -/
def emailMatches (s : Str) : Bool :=
  (!(s.takeWhile isLocalChar).isEmpty) && atDomain (s.dropWhile isLocalChar)

/-- The string contains a dot. -/
def hasDot : Str → Bool
  | [] => false
  | c :: rest => c == '.' || hasDot rest

/-- The string contains an `@` that is followed, later, by a dot: the shape
a malformed address (in the sense of claim C1) lacks. -/
def hasAtDot : Str → Bool
  | [] => false
  | c :: rest => (c == '@' && hasDot rest) || hasAtDot rest

theorem hasDot_append_dot (a tail : Str) : hasDot (a ++ '.' :: tail) = true := by
  induction a with
  | nil => simp [hasDot]
  | cons c cs ih => simp [hasDot, ih]

theorem hasAtDot_append (l d : Str) (h : hasDot d = true) :
    hasAtDot (l ++ '@' :: d) = true := by
  induction l with
  | nil => simp [hasAtDot, h]
  | cons c cs ih => simp [hasAtDot, ih]

/-- A string accepted by the email regex contains an `@` followed by a dot. -/
theorem emailMatches_hasAtDot (s : Str) (h : emailMatches s = true) :
    hasAtDot s = true := by
  unfold emailMatches at h
  rw [Bool.and_eq_true] at h
  obtain ⟨-, h2⟩ := h
  cases hr : s.dropWhile isLocalChar with
  | nil => rw [hr] at h2; exact absurd h2 (by simp [atDomain])
  | cons c d =>
    rw [hr] at h2
    simp only [atDomain, Bool.and_eq_true, beq_iff_eq] at h2
    obtain ⟨hc, hdom⟩ := h2
    unfold domainMatches at hdom
    rw [Bool.and_eq_true] at hdom
    obtain ⟨-, hdt⟩ := hdom
    cases hr2 : d.dropWhile isDomainChar with
    | nil => rw [hr2] at hdt; exact absurd hdt (by simp [dotTail])
    | cons c2 tail =>
      rw [hr2] at hdt
      simp only [dotTail, Bool.and_eq_true, beq_iff_eq] at hdt
      obtain ⟨⟨hc2, -⟩, -⟩ := hdt
      have hd : hasDot d = true := by
        have hsplit : d.takeWhile isDomainChar ++ d.dropWhile isDomainChar = d :=
          List.takeWhile_append_dropWhile _ _
        rw [hr2, hc2] at hsplit
        rw [← hsplit]
        exact hasDot_append_dot _ _
      have hs : s.takeWhile isLocalChar ++ '@' :: d = s := by
        have hsplit : s.takeWhile isLocalChar ++ s.dropWhile isLocalChar = s :=
          List.takeWhile_append_dropWhile _ _
        rw [hr, hc] at hsplit
        exact hsplit
      rw [← hs]
      exact hasAtDot_append _ _ hd

/-- Contrapositive: a string with no `@`-then-dot shape fails the regex. -/
theorem not_emailMatches_of_no_atDot (s : Str) (h : hasAtDot s = false) :
    emailMatches s = false := by
  cases hm : emailMatches s with
  | false => rfl
  | true => simp [emailMatches_hasAtDot s hm] at h

/-- Python values appearing in request payloads. -/
inductive PyVal
  | str (s : Str)
  | int (n : Int)
  | dict (fields : List (Str × PyVal))
  | list (xs : List PyVal)

/-- Decoded JSON values. -/
inductive Json
  | null
  | bool (b : Bool)
  | str (s : Str)
  | num (n : Int)
  | arr (xs : List Json)
  | obj (fields : List (Str × Json))

inductive Method
  | get
  | post
  | delete

/-- One HTTP request: method, full URL, and the form payload (`data=`). -/
structure Request where
  method : Method
  url : Str
  data : List (Str × PyVal)

/-- One HTTP response: status code and decoded JSON body. -/
structure Response where
  status : Nat
  body : Json

/-- The HTTP layer: what the remote server answers to each request. -/
abbrev Oracle := Request → Response

/-- Python exceptions the client can raise. -/
inductive PyError
  | valueError (msg : Str)
  | apiError (e : Json)
  | httpError (status : Nat)
  | typeError
  | keyError (k : Str)
  | attributeError

/-- Python truth test of a decoded JSON value. -/
def jsonTruthy : Json → Bool
  | .null => false
  | .bool b => b
  | .str s => !s.isEmpty
  | .num n => n != 0
  | .arr xs => !xs.isEmpty
  | .obj fs => !fs.isEmpty

/-- Association-list lookup in a decoded JSON object (keys are unique in a
decoded body, so first match suffices). -/
def lookupField : List (Str × Json) → Str → Option Json
  | [], _ => none
  | p :: rest, k => if p.1 = k then some p.2 else lookupField rest k

def errorKey : Str := ("error").data

def dataKey : Str := ("data").data

/-- `body.get(key)`: `None` on a missing key or a non-object body. -/
def envGet (j : Json) (k : Str) : Option Json :=
  match j with
  | .obj fs => lookupField fs k
  | _ => none

/-- Python truth test of the result of `.get` (`None` is falsy). -/
def truthyOpt : Option Json → Bool
  | none => false
  | some j => jsonTruthy j

/-- `response.raise_for_status()` then `response.json()["data"]`:
`requests` raises `HTTPError` for every 4xx or 5xx status, and indexing a
dict with a missing key raises `KeyError`. -/
def unwrapData (status : Nat) (fs : List (Str × Json)) : Except PyError Json :=
  if 400 ≤ status ∧ status < 600 then .error (.httpError status)
  else
    match lookupField fs dataKey with
    | some d => .ok d
    | none => .error (.keyError dataKey)

/-- The `check_response` decorator: raise `ApiError` with the envelope's
`error` value when that value is truthy, then `raise_for_status`, then
return the envelope's `data` field.  `.get` on a body that is not a dict
raises `AttributeError`. -/
def check_response (r : Response) : Except PyError Json :=
  match r.body with
  | .obj fs =>
    match lookupField fs errorKey with
    | some e => if jsonTruthy e then .error (.apiError e) else unwrapData r.status fs
    | none => unwrapData r.status fs
  | _ => .error .attributeError

/-- Is the result a raised `ValueError` (the client's local validations)? -/
def isValueError {α : Type} : Except PyError α → Bool
  | .error (.valueError _) => true
  | _ => false

theorem unwrapData_not_valueError (status : Nat) (fs : List (Str × Json)) :
    isValueError (unwrapData status fs) = false := by
  unfold unwrapData
  split
  · rfl
  · split <;> rfl

/-- `check_response` never raises `ValueError`: a `ValueError` in an
operation's result is always a local validation failure. -/
theorem check_response_not_valueError (r : Response) :
    isValueError (check_response r) = false := by
  unfold check_response
  split
  · split
    · split
      · rfl
      · exact unwrapData_not_valueError _ _
    · exact unwrapData_not_valueError _ _
  · rfl

/-- Python `api_url.endswith("/")`. -/
def endsWithSlash : Str → Bool
  | [] => false
  | [c] => c == '/'
  | _ :: c :: rest => endsWithSlash (c :: rest)

/-- The client configuration held by the `Mailtrain` object. -/
structure Mailtrain where
  api_token : Str
  api_url : Str

/-- `Mailtrain.__init__`: store the token, and store
`api_url[:-1] if api_url.endswith("/") else api_url` as the base URL. -/
def Mailtrain.init (api_token api_url : Str) : Mailtrain :=
  { api_token := api_token,
    api_url := if endsWithSlash api_url then api_url.dropLast else api_url }

/-- Issue one HTTP request and run `check_response` on the reply; the first
component of the result is the trace of requests issued. -/
def runRequest (oracle : Oracle) (req : Request) : List Request × Except PyError Json :=
  ([req], check_response (oracle req))

/-- Message of the `ValueError` raised by the `validate_email` decorator. -/
def invalidEmailMsg : Str := ("Invalid email address").data

/-- Python `str()` of an integer. -/
def intToStr (n : Int) : Str := (toString n).data

/-- `get_subscribers` (decorated with `check_response`). -/
def Mailtrain.get_subscribers (m : Mailtrain) (list_id : Str) (start limit : Int)
    (oracle : Oracle) : List Request × Except PyError Json :=
  runRequest oracle
    { method := Method.get,
      url := m.api_url ++ ("/api/subscriptions/").data ++ list_id
        ++ ("?access_token=").data ++ m.api_token
        ++ ("&start=").data ++ intToStr start ++ ("&limit=").data ++ intToStr limit,
      data := [] }

/-- Python dict update `d[k] = v`: an existing key keeps its position and
gets the new value; a new key is appended. -/
def dictSet (d : List (Str × PyVal)) (k : Str) (v : PyVal) : List (Str × PyVal) :=
  if d.any (fun p => p.1 == k) then
    d.map (fun p => if p.1 == k then (k, v) else p)
  else d ++ [(k, v)]

/-- The request built by `add_subscription`: the payload starts as
`{"EMAIL": email, **kwargs}` and then the optional fields are assigned. -/
def Mailtrain.subscribeRequest (m : Mailtrain)
    (email list_id first_name last_name timezone : Str)
    (force_subscribe require_confirmation : Bool)
    (kwargs : List (Str × PyVal)) : Request :=
  { method := Method.post,
    url := m.api_url ++ ("/api/subscribe/").data ++ list_id
      ++ ("?access_token=").data ++ m.api_token,
    data :=
      let d0 := List.foldl (fun d p => dictSet d p.1 p.2)
        [((("EMAIL").data), PyVal.str email)] kwargs
      let d1 := if first_name.isEmpty then d0
        else dictSet d0 (("MERGE_FIRST_NAME").data) (PyVal.str first_name)
      let d2 := if last_name.isEmpty then d1
        else dictSet d1 (("MERGE_LAST_NAME").data) (PyVal.str last_name)
      let d3 := if timezone.isEmpty then d2
        else dictSet d2 (("TIMEZONE").data) (PyVal.str timezone)
      let d4 := if force_subscribe then
        dictSet d3 (("FORCE_SUBSCRIBE").data) (PyVal.str (("yes").data)) else d3
      if require_confirmation then
        dictSet d4 (("REQUIRE_CONFIRMATION").data) (PyVal.str (("yes").data)) else d4 }

/-- `add_subscription` (decorated with `validate_email` and `check_response`). -/
def Mailtrain.add_subscription (m : Mailtrain)
    (email list_id first_name last_name timezone : Str)
    (force_subscribe require_confirmation : Bool)
    (kwargs : List (Str × PyVal)) (oracle : Oracle) :
    List Request × Except PyError Json :=
  if emailMatches email then
    runRequest oracle (m.subscribeRequest email list_id first_name last_name timezone
      force_subscribe require_confirmation kwargs)
  else ([], .error (.valueError invalidEmailMsg))

/-- The class-body alias `update_subscription = add_subscription`. -/
def Mailtrain.update_subscription :
    Mailtrain → Str → Str → Str → Str → Str → Bool → Bool →
    List (Str × PyVal) → Oracle → List Request × Except PyError Json :=
  Mailtrain.add_subscription

/-- The request built by `unsubscribe`. -/
def Mailtrain.unsubscribeRequest (m : Mailtrain) (email list_id : Str) : Request :=
  { method := Method.post,
    url := m.api_url ++ ("/api/unsubscribe/").data ++ list_id
      ++ ("?access_token=").data ++ m.api_token,
    data := [((("EMAIL").data), PyVal.str email)] }

/-- `unsubscribe` (decorated with `validate_email` and `check_response`). -/
def Mailtrain.unsubscribe (m : Mailtrain) (email list_id : Str) (oracle : Oracle) :
    List Request × Except PyError Json :=
  if emailMatches email then runRequest oracle (m.unsubscribeRequest email list_id)
  else ([], .error (.valueError invalidEmailMsg))

/-- The request built by `get_lists`. -/
def Mailtrain.getListsRequest (m : Mailtrain) (email : Str) : Request :=
  { method := Method.get,
    url := m.api_url ++ ("/api/lists/").data ++ email
      ++ ("?access_token=").data ++ m.api_token,
    data := [] }

/-- `get_lists` (decorated with `validate_email` and `check_response`). -/
def Mailtrain.get_lists (m : Mailtrain) (email : Str) (oracle : Oracle) :
    List Request × Except PyError Json :=
  if emailMatches email then runRequest oracle (m.getListsRequest email)
  else ([], .error (.valueError invalidEmailMsg))

/-- `list_id["cid"]` on one element of the decoded `get_lists` result.
A missing key raises `KeyError`; a non-dict element raises `TypeError`
(so does a non-string cid, when concatenated into the next URL: in both
cases before any further request is issued). -/
def cidOf : Json → Except PyError Str
  | .obj fs =>
    match lookupField fs (("cid").data) with
    | some (.str c) => .ok c
    | some _ => .error .typeError
    | none => .error (.keyError (("cid").data))
  | _ => .error .typeError

/-- Python iteration over the decoded `get_lists` result: an array yields
its elements, a dict yields its keys, a string yields its one-character
substrings; other values raise `TypeError`. -/
def iterItems : Json → Except PyError (List Json)
  | .arr xs => .ok xs
  | .obj fs => .ok (fs.map (fun p => .str p.1))
  | .str s => .ok (s.map (fun c => .str [c]))
  | _ => .error .typeError

/-- The `for` loop of `unsubscribe_from_all_lists`: unsubscribe the address
from each membership in order, stopping at the first raised error. -/
def unsubAllLoop (m : Mailtrain) (email : Str) (oracle : Oracle) :
    List Json → List Request × Except PyError Bool
  | [] => ([], .ok true)
  | item :: rest =>
    match cidOf item with
    | .error e => ([], .error e)
    | .ok cid =>
      match m.unsubscribe email cid oracle with
      | (t, .error e) => (t, .error e)
      | (t, .ok _) =>
        match unsubAllLoop m email oracle rest with
        | (t2, r2) => (t ++ t2, r2)

/-- `unsubscribe_from_all_lists` (decorated with `validate_email`):
fetch the memberships with `get_lists`, loop, return `True`. -/
def Mailtrain.unsubscribe_from_all_lists (m : Mailtrain) (email : Str)
    (oracle : Oracle) : List Request × Except PyError Bool :=
  if emailMatches email then
    match m.get_lists email oracle with
    | (t, .error e) => (t, .error e)
    | (t, .ok j) =>
      match iterItems j with
      | .error e => (t, .error e)
      | .ok items =>
        match unsubAllLoop m email oracle items with
        | (t2, r2) => (t ++ t2, r2)
  else ([], .error (.valueError invalidEmailMsg))

/-- The request built by `delete_subscription`. -/
def Mailtrain.deleteRequest (m : Mailtrain) (email list_id : Str) : Request :=
  { method := Method.post,
    url := m.api_url ++ ("/api/delete/").data ++ list_id
      ++ ("?access_token=").data ++ m.api_token,
    data := [((("EMAIL").data), PyVal.str email)] }

/-- `delete_subscription` (decorated with `validate_email` and `check_response`). -/
def Mailtrain.delete_subscription (m : Mailtrain) (email list_id : Str)
    (oracle : Oracle) : List Request × Except PyError Json :=
  if emailMatches email then runRequest oracle (m.deleteRequest email list_id)
  else ([], .error (.valueError invalidEmailMsg))

/-- The `for` loop of `delete_from_all_lists`. -/
def delAllLoop (m : Mailtrain) (email : Str) (oracle : Oracle) :
    List Json → List Request × Except PyError Bool
  | [] => ([], .ok true)
  | item :: rest =>
    match cidOf item with
    | .error e => ([], .error e)
    | .ok cid =>
      match m.delete_subscription email cid oracle with
      | (t, .error e) => (t, .error e)
      | (t, .ok _) =>
        match delAllLoop m email oracle rest with
        | (t2, r2) => (t ++ t2, r2)

/-- `delete_from_all_lists` (decorated with `validate_email`). -/
def Mailtrain.delete_from_all_lists (m : Mailtrain) (email : Str)
    (oracle : Oracle) : List Request × Except PyError Bool :=
  if emailMatches email then
    match m.get_lists email oracle with
    | (t, .error e) => (t, .error e)
    | (t, .ok j) =>
      match iterItems j with
      | .error e => (t, .error e)
      | .ok items =>
        match delAllLoop m email oracle items with
        | (t2, r2) => (t ++ t2, r2)
  else ([], .error (.valueError invalidEmailMsg))

/-- The 14 valid custom-field types of `create_custom_field`. -/
def validTypes : List Str :=
  [("text").data, ("website").data, ("longtext").data, ("gpg").data,
   ("number").data, ("radio").data, ("checkbox").data, ("dropdown").data,
   ("date-us").data, ("date-eur").data, ("birthday-us").data,
   ("birthday-eur").data, ("json").data, ("option").data]

/-- Python `", ".join(...)`. -/
def joinComma : List Str → Str
  | [] => []
  | [s] => s
  | s :: t :: rest => s ++ (", ").data ++ joinComma (t :: rest)

/-- Message of the invalid-type `ValueError` of `create_custom_field`. -/
def invalidTypeMsg : Str :=
  ("Invalid type. Valid types are: ").data ++ joinComma validTypes

/-- Message of the missing-group `ValueError` of `create_custom_field`. -/
def optionGroupMsg : Str :=
  ("You must specify the parent element ID for type \x27option\x27").data

/-- The request built by `create_custom_field`. -/
def Mailtrain.createFieldRequest (m : Mailtrain)
    (list_id name type group_template group : Str) (visible : Bool) : Request :=
  { method := Method.post,
    url := m.api_url ++ ("/api/field/").data ++ list_id
      ++ ("?access_token=").data ++ m.api_token,
    data := [((("NAME").data), PyVal.str name),
             ((("TYPE").data), PyVal.str type),
             ((("GROUP").data), PyVal.str group),
             ((("GROUP_TEMPLATE").data), PyVal.str group_template),
             ((("VISIBLE").data),
               PyVal.str (if visible then ("yes").data else ("no").data))] }

/-- `create_custom_field` (decorated with `check_response`): reject an
unknown type, then reject type `option` with an empty group, then POST. -/
def Mailtrain.create_custom_field (m : Mailtrain)
    (list_id name type group_template group : Str) (visible : Bool)
    (oracle : Oracle) : List Request × Except PyError Json :=
  if validTypes.contains type = false then
    ([], .error (.valueError invalidTypeMsg))
  else if type = ("option").data ∧ group = [] then
    ([], .error (.valueError optionGroupMsg))
  else
    runRequest oracle (m.createFieldRequest list_id name type group_template group visible)

/-- `get_blacklist` (decorated with `check_response`). -/
def Mailtrain.get_blacklist (m : Mailtrain) (start limit : Int) (search : Str)
    (oracle : Oracle) : List Request × Except PyError Json :=
  runRequest oracle
    { method := Method.get,
      url := m.api_url ++ ("/api/blacklist/get?access_token=").data ++ m.api_token
        ++ ("&start=").data ++ intToStr start ++ ("&limit=").data ++ intToStr limit
        ++ ("&search=").data ++ search,
      data := [] }

/-- `add_to_blacklist` (decorated with `validate_email` and `check_response`). -/
def Mailtrain.add_to_blacklist (m : Mailtrain) (email : Str) (oracle : Oracle) :
    List Request × Except PyError Json :=
  if emailMatches email then
    runRequest oracle
      { method := Method.post,
        url := m.api_url ++ ("/api/blacklist/add?access_token=").data ++ m.api_token,
        data := [((("EMAIL").data), PyVal.str email)] }
  else ([], .error (.valueError invalidEmailMsg))

/-- `delete_from_blacklist` (decorated with `validate_email` and `check_response`). -/
def Mailtrain.delete_from_blacklist (m : Mailtrain) (email : Str) (oracle : Oracle) :
    List Request × Except PyError Json :=
  if emailMatches email then
    runRequest oracle
      { method := Method.post,
        url := m.api_url ++ ("/api/blacklist/delete?access_token=").data ++ m.api_token,
        data := [((("EMAIL").data), PyVal.str email)] }
  else ([], .error (.valueError invalidEmailMsg))

/-- `get_lists_by_namespace` (decorated with `check_response`; no email
validation). -/
def Mailtrain.get_lists_by_namespace (m : Mailtrain) (namespace_id : Str)
    (oracle : Oracle) : List Request × Except PyError Json :=
  runRequest oracle
    { method := Method.get,
      url := m.api_url ++ ("/api/lists-by-namespace/").data ++ namespace_id
        ++ ("?access_token=").data ++ m.api_token,
      data := [] }

/-- The valid `unsubscription_mode` values of `create_list`. -/
def validUnsubModes : List Int := [0, 1, 2, 3, 4]

/-- The valid `fieldwizard` values of `create_list`. -/
def validFieldwizards : List Str :=
  [("").data, ("full_name").data, ("first_last_name").data]

/-- The request built by `create_list`. -/
def Mailtrain.createListRequest (m : Mailtrain) (nmspace : Str)
    (unsubscription_mode : Int)
    (name description contact_email homepage fieldwizard : Str)
    (send_configuration public_subscribe listunsubscribe_disabled : Bool) : Request :=
  { method := Method.post,
    url := m.api_url ++ ("/api/list?access_token=").data ++ m.api_token,
    data := [((("NAMESPACE").data), PyVal.str nmspace),
             ((("UNSUBSCRIPTION_MODE").data), PyVal.int unsubscription_mode),
             ((("NAME").data), PyVal.str name),
             ((("DESCRIPTION").data), PyVal.str description),
             ((("CONTACT_EMAIL").data), PyVal.str contact_email),
             ((("HOMEPAGE").data), PyVal.str homepage),
             ((("FIELDWIZARD").data), PyVal.str fieldwizard),
             ((("SEND_CONFIGURATION").data),
               PyVal.int (if send_configuration then 1 else 0)),
             ((("PUBLIC_SUBSCRIBE").data),
               PyVal.int (if public_subscribe then 1 else 0)),
             ((("LISTUNSUBSCRIBE_DISABLED").data),
               PyVal.int (if listunsubscribe_disabled then 1 else 0))] }

/-- `create_list` (decorated with `check_response`; `nmspace` renders the
Python parameter named `namespace`, a reserved word here): reject an
out-of-range unsubscription mode, then an unknown fieldwizard, then POST. -/
def Mailtrain.create_list (m : Mailtrain) (nmspace : Str)
    (unsubscription_mode : Int)
    (name description contact_email homepage fieldwizard : Str)
    (send_configuration public_subscribe listunsubscribe_disabled : Bool)
    (oracle : Oracle) : List Request × Except PyError Json :=
  if validUnsubModes.contains unsubscription_mode = false then
    ([], .error (.valueError (("Invalid unsubscription_mode").data)))
  else if validFieldwizards.contains fieldwizard = false then
    ([], .error (.valueError (("Invalid fieldwizard").data)))
  else
    runRequest oracle (m.createListRequest nmspace unsubscription_mode name
      description contact_email homepage fieldwizard send_configuration
      public_subscribe listunsubscribe_disabled)

/-- `delete_list` (decorated with `check_response`). -/
def Mailtrain.delete_list (m : Mailtrain) (list_id : Str) (oracle : Oracle) :
    List Request × Except PyError Json :=
  runRequest oracle
    { method := Method.delete,
      url := m.api_url ++ ("/api/list/").data ++ list_id
        ++ ("?access_token=").data ++ m.api_token,
      data := [] }

/-- `fetch_rss` (decorated with `check_response`). -/
def Mailtrain.fetch_rss (m : Mailtrain) (campaign_cid : Str) (oracle : Oracle) :
    List Request × Except PyError Json :=
  runRequest oracle
    { method := Method.get,
      url := m.api_url ++ ("/api/rss/fetch/").data ++ campaign_cid
        ++ ("?access_token=").data ++ m.api_token,
      data := [] }

/-- Python `+` of a string and an arbitrary value: only a string right
operand concatenates; anything else raises `TypeError`. -/
def pyConcat (a : Str) : PyVal → Except PyError Str
  | .str s => .ok (a ++ s)
  | _ => .error .typeError

/-- `send_email_by_template` (decorated with `validate_email` and
`check_response`).  The URL is built by string concatenation with the raw
`template_id` value, exactly as in the source, so a non-string
`template_id` raises `TypeError` before any request is issued. -/
def Mailtrain.send_email_by_template (m : Mailtrain) (email : Str)
    (template_id tags send_configuration_id : PyVal) (subject : Str)
    (attachments : PyVal) (oracle : Oracle) :
    List Request × Except PyError Json :=
  if emailMatches email then
    match pyConcat (m.api_url ++ ("/api/templates/").data) template_id with
    | .error e => ([], .error e)
    | .ok u =>
      runRequest oracle
        { method := Method.post,
          url := u ++ ("/send?access_token=").data ++ m.api_token,
          data := [((("EMAIL").data), PyVal.str email),
                   ((("TAGS").data), tags),
                   ((("SEND_CONFIGURATION_ID").data), send_configuration_id),
                   ((("SUBJECT").data), PyVal.str subject),
                   ((("ATTACHMENTS").data), attachments)] }
  else ([], .error (.valueError invalidEmailMsg))

/-- A concrete client, for the concrete instances below. -/
def mEx : Mailtrain :=
  Mailtrain.init (("tok").data) (("https://mail.example.com/").data)

/-- A concrete valid address. -/
def emEx : Str := ("user@example.com").data

/-- A successful response envelope wrapping `d`. -/
def okBody (d : Json) : Json :=
  Json.obj [((("error").data), Json.null), ((("data").data), d)]

/-- The error value of the concrete failing envelope. -/
def errJson : Json := Json.str (("boom").data)

/-- A response envelope carrying a non-empty error message. -/
def errBody : Json := Json.obj [((("error").data), errJson)]

/-- Two concrete list memberships. -/
def lj1 : Json := Json.obj [((("cid").data), Json.str (("aaa").data))]

def lj2 : Json := Json.obj [((("cid").data), Json.str (("bbb").data))]

/-- A server on which `emEx` belongs to the two lists and every other call
succeeds. -/
def oracleOk : Oracle := fun r =>
  if r.url = (mEx.getListsRequest emEx).url then
    Response.mk 200 (okBody (Json.arr [lj1, lj2]))
  else Response.mk 200 (okBody (Json.obj []))

/-- A server on which `emEx` belongs to the two lists and acting on the
second list fails with an error envelope. -/
def oracleFailSecond : Oracle := fun r =>
  if r.url = (mEx.unsubscribeRequest emEx (("bbb").data)).url then
    Response.mk 200 errBody
  else if r.url = (mEx.deleteRequest emEx (("bbb").data)).url then
    Response.mk 200 errBody
  else if r.url = (mEx.getListsRequest emEx).url then
    Response.mk 200 (okBody (Json.arr [lj1, lj2]))
  else Response.mk 200 (okBody (Json.obj []))

/-- Claim C3 counterexample: constructed from a base URL ending in two
slashes, the client's stored base URL still ends with a trailing slash,
because the constructor drops only one character. -/
theorem base_url_double_slash_counterexample :
    endsWithSlash (Mailtrain.init (("tok").data)
      (("https://mail.example.com//").data)).api_url = true := by
  decide

/-- Claim C3 (amended): the constructor strips exactly one trailing slash,
so for every input URL that does not end in two slashes the stored base
URL does not end with a slash; in particular "https://mail.example.com/"
is stored as "https://mail.example.com". -/
theorem base_url_strips_one_slash (api_token api_url : Str)
    (h : (endsWithSlash api_url && endsWithSlash api_url.dropLast) = false) :
    endsWithSlash (Mailtrain.init api_token api_url).api_url = false ∧
    (Mailtrain.init api_token (("https://mail.example.com/").data)).api_url
      = ("https://mail.example.com").data := by
  constructor
  · unfold Mailtrain.init
    by_cases he : endsWithSlash api_url = true
    · rw [he] at h
      simp only [Bool.true_and] at h
      simp [he, h]
    · rw [Bool.not_eq_true] at he
      simp [he]
  · rfl

/-- Witness for the amended C3 at the spec's example URL. -/
theorem base_url_strips_one_slash_witness :
    ((endsWithSlash (("https://mail.example.com/").data) &&
      endsWithSlash (("https://mail.example.com/").data).dropLast) = false) ∧
    (endsWithSlash (Mailtrain.init (("t").data)
        (("https://mail.example.com/").data)).api_url = false ∧
     (Mailtrain.init (("t").data) (("https://mail.example.com/").data)).api_url
       = ("https://mail.example.com").data) :=
  ⟨by decide,
   base_url_strips_one_slash (("t").data) (("https://mail.example.com/").data)
     (by decide)⟩

/-- Claim C9: `update_subscription` is a pure alias of `add_subscription`:
the two operations agree on every argument vector. -/
theorem update_subscription_alias (m : Mailtrain)
    (email list_id first_name last_name timezone : Str)
    (force_subscribe require_confirmation : Bool)
    (kwargs : List (Str × PyVal)) (oracle : Oracle) :
    m.update_subscription email list_id first_name last_name timezone
      force_subscribe require_confirmation kwargs oracle =
    m.add_subscription email list_id first_name last_name timezone
      force_subscribe require_confirmation kwargs oracle := rfl

/-- Claim C4 (code bug): with the default integer `template_id = 1` and a
valid address, `send_email_by_template` raises `TypeError` while building
the URL (a Python string concatenated with an int), before any request is
issued, instead of POSTing to `{base_url}/api/templates/1/send`. -/
theorem send_email_by_template_default_type_error (oracle : Oracle) :
    mEx.send_email_by_template emEx (PyVal.int 1) (PyVal.dict [])
      (PyVal.int 0) [] (PyVal.list []) oracle
      = ([], Except.error PyError.typeError) := by
  unfold Mailtrain.send_email_by_template
  rw [show emailMatches emEx = true from by decide]
  rfl

/-- Claim C1: every string lacking an `@` followed by a dot fails the email
regex, so each of the ten email-validated operations raises the local
`ValueError` with an empty request trace (no network call). -/
theorem malformed_email_rejected_locally (m : Mailtrain) (oracle : Oracle)
    (s list_id first_name last_name timezone subject : Str)
    (force_subscribe require_confirmation : Bool)
    (kwargs : List (Str × PyVal))
    (template_id tags send_configuration_id attachments : PyVal)
    (h : hasAtDot s = false) :
    m.add_subscription s list_id first_name last_name timezone
      force_subscribe require_confirmation kwargs oracle
      = ([], Except.error (PyError.valueError invalidEmailMsg)) ∧
    m.update_subscription s list_id first_name last_name timezone
      force_subscribe require_confirmation kwargs oracle
      = ([], Except.error (PyError.valueError invalidEmailMsg)) ∧
    m.unsubscribe s list_id oracle
      = ([], Except.error (PyError.valueError invalidEmailMsg)) ∧
    m.unsubscribe_from_all_lists s oracle
      = ([], Except.error (PyError.valueError invalidEmailMsg)) ∧
    m.delete_subscription s list_id oracle
      = ([], Except.error (PyError.valueError invalidEmailMsg)) ∧
    m.delete_from_all_lists s oracle
      = ([], Except.error (PyError.valueError invalidEmailMsg)) ∧
    m.add_to_blacklist s oracle
      = ([], Except.error (PyError.valueError invalidEmailMsg)) ∧
    m.delete_from_blacklist s oracle
      = ([], Except.error (PyError.valueError invalidEmailMsg)) ∧
    m.get_lists s oracle
      = ([], Except.error (PyError.valueError invalidEmailMsg)) ∧
    m.send_email_by_template s template_id tags send_configuration_id
      subject attachments oracle
      = ([], Except.error (PyError.valueError invalidEmailMsg)) := by
  have hm : emailMatches s = false := not_emailMatches_of_no_atDot s h
  refine ⟨?_, ?_, ?_, ?_, ?_, ?_, ?_, ?_, ?_, ?_⟩ <;>
    simp [Mailtrain.add_subscription, Mailtrain.update_subscription,
      Mailtrain.unsubscribe, Mailtrain.unsubscribe_from_all_lists,
      Mailtrain.delete_subscription, Mailtrain.delete_from_all_lists,
      Mailtrain.add_to_blacklist, Mailtrain.delete_from_blacklist,
      Mailtrain.get_lists, Mailtrain.send_email_by_template, hm]

/-- Witness for C1 at the spec's malformed address "not-an-email". -/
theorem malformed_email_rejected_locally_witness :
    hasAtDot (("not-an-email").data) = false ∧
    mEx.add_to_blacklist (("not-an-email").data) oracleOk
      = ([], Except.error (PyError.valueError invalidEmailMsg)) :=
  ⟨by decide,
   (malformed_email_rejected_locally mEx oracleOk (("not-an-email").data)
      [] [] [] [] [] true false [] (PyVal.int 1) (PyVal.dict [])
      (PyVal.int 0) (PyVal.list []) (by decide)).2.2.2.2.2.2.1⟩

/-- Claim C2: `check_response` raises `ApiError` carrying the
server-provided error value whenever the envelope's `error` field is
non-empty (truthy), and on a successful (2xx) response without such an
error it returns the envelope's `data` field, stripping the
`{data, error}` wrapper. -/
theorem check_response_unwraps_envelope (r : Response) :
    (∀ e, envGet r.body errorKey = some e → jsonTruthy e = true →
      check_response r = Except.error (PyError.apiError e)) ∧
    (truthyOpt (envGet r.body errorKey) = false →
      200 ≤ r.status → r.status < 300 →
      ∀ d, envGet r.body dataKey = some d → check_response r = Except.ok d) := by
  obtain ⟨st, body⟩ := r
  constructor
  · intro e he ht
    cases body with
    | obj fs =>
      simp only [envGet] at he
      simp [check_response, he, ht]
    | null => simp [envGet] at he
    | bool b => simp [envGet] at he
    | str s => simp [envGet] at he
    | num n => simp [envGet] at he
    | arr xs => simp [envGet] at he
  · intro hf h200 h300 d hd
    cases body with
    | obj fs =>
      simp only [envGet] at hf hd
      have hns : ¬(400 ≤ st ∧ st < 600) := by
        simp only at h300
        omega
      cases hl : lookupField fs errorKey with
      | none => simp [check_response, hl, unwrapData, hns, hd]
      | some e =>
        rw [hl] at hf
        simp only [truthyOpt] at hf
        simp [check_response, hl, hf, unwrapData, hns, hd]
    | null => simp [envGet] at hd
    | bool b => simp [envGet] at hd
    | str s => simp [envGet] at hd
    | num n => simp [envGet] at hd
    | arr xs => simp [envGet] at hd

/-- Witness for C2: a 500 response with an error envelope raises
`ApiError "boom"`, and a 200 response with a clean envelope returns the
unwrapped data. -/
theorem check_response_unwraps_envelope_witness :
    (envGet (Response.mk 500 errBody).body errorKey = some errJson ∧
     jsonTruthy errJson = true ∧
     check_response (Response.mk 500 errBody)
       = Except.error (PyError.apiError errJson)) ∧
    check_response (Response.mk 200 (okBody (Json.num 7))) = Except.ok (Json.num 7) :=
  ⟨⟨rfl, rfl,
    (check_response_unwraps_envelope (Response.mk 500 errBody)).1 errJson rfl rfl⟩,
   (check_response_unwraps_envelope (Response.mk 200 (okBody (Json.num 7)))).2
     rfl (by decide) (by decide) (Json.num 7) rfl⟩

/-- Claim C10: in `check_response` the envelope check precedes the status
check: a non-2xx response whose `error` field is non-empty (truthy) raises
`ApiError` with the server value and never an HTTP status error, and
`HTTPError` is raised only when the `error` field is absent or falsy under
the Python truth test (for the server's string error messages: exactly
absent, null, or empty). -/
theorem envelope_error_precedes_status (r : Response) :
    (∀ e, envGet r.body errorKey = some e → jsonTruthy e = true →
      ¬(200 ≤ r.status ∧ r.status < 300) →
      check_response r = Except.error (PyError.apiError e)) ∧
    (∀ s, check_response r = Except.error (PyError.httpError s) →
      truthyOpt (envGet r.body errorKey) = false) := by
  obtain ⟨st, body⟩ := r
  constructor
  · intro e he ht hn
    cases body with
    | obj fs =>
      simp only [envGet] at he
      simp [check_response, he, ht]
    | null => simp [envGet] at he
    | bool b => simp [envGet] at he
    | str s => simp [envGet] at he
    | num n => simp [envGet] at he
    | arr xs => simp [envGet] at he
  · intro s hs
    cases body with
    | obj fs =>
      simp only [envGet]
      cases hl : lookupField fs errorKey with
      | none => simp [truthyOpt]
      | some e =>
        simp only [truthyOpt]
        by_contra hne
        rw [Bool.not_eq_false] at hne
        rw [check_response] at hs
        simp [hl, hne] at hs
    | null => rw [check_response] at hs; simp at hs
    | bool b => rw [check_response] at hs; simp at hs
    | str sx => rw [check_response] at hs; simp at hs
    | num n => rw [check_response] at hs; simp at hs
    | arr xs => rw [check_response] at hs; simp at hs

/-- Witness for C10: a 404 response with an error envelope raises
`ApiError`, and a 404 response with no error field raises `HTTPError`
whose envelope error field is indeed falsy. -/
theorem envelope_error_precedes_status_witness :
    check_response (Response.mk 404 errBody)
      = Except.error (PyError.apiError errJson) ∧
    truthyOpt (envGet (Response.mk 404 (Json.obj [])).body errorKey) = false :=
  ⟨(envelope_error_precedes_status (Response.mk 404 errBody)).1 errJson rfl rfl
      (by decide),
   (envelope_error_precedes_status (Response.mk 404 (Json.obj []))).2 404 rfl⟩

/-- Claim C5: `create_custom_field` raises the local `ValueError` with no
request issued exactly when the type is not one of the 14 valid types or
the type is `option` with an empty group; for any other arguments it
issues its POST and raises no local validation error. -/
theorem create_custom_field_local_validation (m : Mailtrain) (oracle : Oracle)
    (list_id name type group_template group : Str) (visible : Bool) :
    ((m.create_custom_field list_id name type group_template group
        visible oracle).1 = [] ∧
     isValueError (m.create_custom_field list_id name type group_template group
        visible oracle).2 = true)
    ↔ (validTypes.contains type = false ∨
        (type = ("option").data ∧ group = [])) := by
  unfold Mailtrain.create_custom_field
  by_cases h1 : validTypes.contains type = false
  · rw [if_pos h1]
    exact iff_of_true ⟨rfl, rfl⟩ (Or.inl h1)
  · rw [if_neg h1]
    by_cases h2 : type = ("option").data ∧ group = []
    · rw [if_pos h2]
      exact iff_of_true ⟨rfl, rfl⟩ (Or.inr h2)
    · rw [if_neg h2]
      refine iff_of_false ?_ ?_
      · rintro ⟨hfst, -⟩
        exact List.cons_ne_nil _ _ hfst
      · rintro (hx | hx)
        · exact h1 hx
        · exact h2 hx

/-- Claim C6: `create_list` raises the local `ValueError` with no request
issued exactly when `unsubscription_mode` is outside {0,1,2,3,4} or
`fieldwizard` is outside {"", "full_name", "first_last_name"}; for
in-range values of both it raises no local validation error. -/
theorem create_list_local_validation (m : Mailtrain) (oracle : Oracle)
    (nmspace : Str) (unsubscription_mode : Int)
    (name description contact_email homepage fieldwizard : Str)
    (send_configuration public_subscribe listunsubscribe_disabled : Bool) :
    ((m.create_list nmspace unsubscription_mode name description contact_email
        homepage fieldwizard send_configuration public_subscribe
        listunsubscribe_disabled oracle).1 = [] ∧
     isValueError (m.create_list nmspace unsubscription_mode name description
        contact_email homepage fieldwizard send_configuration public_subscribe
        listunsubscribe_disabled oracle).2 = true)
    ↔ (validUnsubModes.contains unsubscription_mode = false ∨
        validFieldwizards.contains fieldwizard = false) := by
  unfold Mailtrain.create_list
  by_cases h1 : validUnsubModes.contains unsubscription_mode = false
  · rw [if_pos h1]
    exact iff_of_true ⟨rfl, rfl⟩ (Or.inl h1)
  · rw [if_neg h1]
    by_cases h2 : validFieldwizards.contains fieldwizard = false
    · rw [if_pos h2]
      exact iff_of_true ⟨rfl, rfl⟩ (Or.inr h2)
    · rw [if_neg h2]
      refine iff_of_false ?_ ?_
      · rintro ⟨hfst, -⟩
        exact List.cons_ne_nil _ _ hfst
      · rintro (hx | hx)
        · exact h1 hx
        · exact h2 hx

/-- Claim C7: on a valid address whose membership list decodes to
`[j1, j2]` with cids `c1` and `c2`, `unsubscribe_from_all_lists` issues
the one `get_lists` request followed by exactly the two unsubscribe
requests, one per cid and in the order returned, and returns `True` when
both succeed. -/
theorem unsubscribe_from_all_lists_two_lists (m : Mailtrain) (oracle : Oracle)
    (email c1 c2 : Str) (j1 j2 d1 d2 : Json)
    (hv : emailMatches email = true)
    (hl : check_response (oracle (m.getListsRequest email))
      = Except.ok (Json.arr [j1, j2]))
    (h1 : cidOf j1 = Except.ok c1)
    (h2 : cidOf j2 = Except.ok c2)
    (hu1 : check_response (oracle (m.unsubscribeRequest email c1)) = Except.ok d1)
    (hu2 : check_response (oracle (m.unsubscribeRequest email c2)) = Except.ok d2) :
    m.unsubscribe_from_all_lists email oracle =
      ([m.getListsRequest email, m.unsubscribeRequest email c1,
        m.unsubscribeRequest email c2], Except.ok true) := by
  simp [Mailtrain.unsubscribe_from_all_lists, Mailtrain.get_lists, hv, runRequest,
    hl, iterItems, unsubAllLoop, h1, h2, Mailtrain.unsubscribe, hu1, hu2]

/-- Witness for C7 on the concrete two-list server. -/
theorem unsubscribe_from_all_lists_two_lists_witness :
    mEx.unsubscribe_from_all_lists emEx oracleOk =
      ([mEx.getListsRequest emEx, mEx.unsubscribeRequest emEx (("aaa").data),
        mEx.unsubscribeRequest emEx (("bbb").data)], Except.ok true) :=
  unsubscribe_from_all_lists_two_lists mEx oracleOk emEx (("aaa").data)
    (("bbb").data) lj1 lj2 (Json.obj []) (Json.obj [])
    (by decide) rfl rfl rfl rfl rfl

/-- The unsubscribe loop stops at the first item whose unsubscribe call
raises: the trace covers only the successful items and the failing one. -/
theorem unsubAllLoop_fail (m : Mailtrain) (oracle : Oracle) (email c : Str)
    (pres : List (Json × Str)) (jf : Json) (post : List Json) (e : PyError)
    (hv : emailMatches email = true)
    (hpre : ∀ p, p ∈ pres → cidOf p.1 = Except.ok p.2 ∧
      ∃ d, check_response (oracle (m.unsubscribeRequest email p.2)) = Except.ok d)
    (hc : cidOf jf = Except.ok c)
    (he : check_response (oracle (m.unsubscribeRequest email c)) = Except.error e) :
    unsubAllLoop m email oracle (pres.map Prod.fst ++ jf :: post) =
      (pres.map (fun p => m.unsubscribeRequest email p.2)
        ++ [m.unsubscribeRequest email c], Except.error e) := by
  revert hpre
  induction pres with
  | nil =>
    intro hpre
    simp [unsubAllLoop, hc, Mailtrain.unsubscribe, hv, runRequest, he]
  | cons p ps ih =>
    intro hpre
    obtain ⟨hcp, d, hd⟩ := hpre p (by simp)
    have ih2 := ih (fun q hq => hpre q (by simp [hq]))
    simp [unsubAllLoop, hcp, Mailtrain.unsubscribe, hv, runRequest, hd, ih2]

/-- The delete loop stops at the first item whose delete call raises. -/
theorem delAllLoop_fail (m : Mailtrain) (oracle : Oracle) (email c : Str)
    (pres : List (Json × Str)) (jf : Json) (post : List Json) (e : PyError)
    (hv : emailMatches email = true)
    (hpre : ∀ p, p ∈ pres → cidOf p.1 = Except.ok p.2 ∧
      ∃ d, check_response (oracle (m.deleteRequest email p.2)) = Except.ok d)
    (hc : cidOf jf = Except.ok c)
    (he : check_response (oracle (m.deleteRequest email c)) = Except.error e) :
    delAllLoop m email oracle (pres.map Prod.fst ++ jf :: post) =
      (pres.map (fun p => m.deleteRequest email p.2)
        ++ [m.deleteRequest email c], Except.error e) := by
  revert hpre
  induction pres with
  | nil =>
    intro hpre
    simp [delAllLoop, hc, Mailtrain.delete_subscription, hv, runRequest, he]
  | cons p ps ih =>
    intro hpre
    obtain ⟨hcp, d, hd⟩ := hpre p (by simp)
    have ih2 := ih (fun q hq => hpre q (by simp [hq]))
    simp [delAllLoop, hcp, Mailtrain.delete_subscription, hv, runRequest, hd, ih2]

/-- Claim C8: in both iterate-and-act helpers, the first per-item failure
propagates unchanged to the caller and no request is issued for any
membership after the failing one; per-item errors are never caught or
aggregated. -/
theorem all_lists_first_failure_aborts :
    (∀ (m : Mailtrain) (oracle : Oracle) (email c : Str)
      (pres : List (Json × Str)) (jf : Json) (post : List Json) (e : PyError),
      emailMatches email = true →
      check_response (oracle (m.getListsRequest email))
        = Except.ok (Json.arr (pres.map Prod.fst ++ jf :: post)) →
      (∀ p, p ∈ pres → cidOf p.1 = Except.ok p.2 ∧
        ∃ d, check_response (oracle (m.unsubscribeRequest email p.2)) = Except.ok d) →
      cidOf jf = Except.ok c →
      check_response (oracle (m.unsubscribeRequest email c)) = Except.error e →
      m.unsubscribe_from_all_lists email oracle =
        (m.getListsRequest email ::
          (pres.map (fun p => m.unsubscribeRequest email p.2)
            ++ [m.unsubscribeRequest email c]), Except.error e)) ∧
    (∀ (m : Mailtrain) (oracle : Oracle) (email c : Str)
      (pres : List (Json × Str)) (jf : Json) (post : List Json) (e : PyError),
      emailMatches email = true →
      check_response (oracle (m.getListsRequest email))
        = Except.ok (Json.arr (pres.map Prod.fst ++ jf :: post)) →
      (∀ p, p ∈ pres → cidOf p.1 = Except.ok p.2 ∧
        ∃ d, check_response (oracle (m.deleteRequest email p.2)) = Except.ok d) →
      cidOf jf = Except.ok c →
      check_response (oracle (m.deleteRequest email c)) = Except.error e →
      m.delete_from_all_lists email oracle =
        (m.getListsRequest email ::
          (pres.map (fun p => m.deleteRequest email p.2)
            ++ [m.deleteRequest email c]), Except.error e)) := by
  constructor
  · intro m oracle email c pres jf post e hv hl hpre hc he
    have hloop := unsubAllLoop_fail m oracle email c pres jf post e hv hpre hc he
    simp [Mailtrain.unsubscribe_from_all_lists, Mailtrain.get_lists, hv,
      runRequest, hl, iterItems, hloop]
  · intro m oracle email c pres jf post e hv hl hpre hc he
    have hloop := delAllLoop_fail m oracle email c pres jf post e hv hpre hc he
    simp [Mailtrain.delete_from_all_lists, Mailtrain.get_lists, hv,
      runRequest, hl, iterItems, hloop]

/-- Witness for C8 on the concrete server that fails on the second list:
both helpers stop right after the failing request and surface the server
error. -/
theorem all_lists_first_failure_aborts_witness :
    mEx.unsubscribe_from_all_lists emEx oracleFailSecond =
      ([mEx.getListsRequest emEx, mEx.unsubscribeRequest emEx (("aaa").data),
        mEx.unsubscribeRequest emEx (("bbb").data)],
        Except.error (PyError.apiError errJson)) ∧
    mEx.delete_from_all_lists emEx oracleFailSecond =
      ([mEx.getListsRequest emEx, mEx.deleteRequest emEx (("aaa").data),
        mEx.deleteRequest emEx (("bbb").data)],
        Except.error (PyError.apiError errJson)) :=
  ⟨all_lists_first_failure_aborts.1 mEx oracleFailSecond emEx (("bbb").data)
      [(lj1, (("aaa").data))] lj2 [] (PyError.apiError errJson) (by decide) rfl
      (by
        intro p hp
        simp only [List.mem_singleton] at hp
        subst hp
        exact ⟨rfl, ⟨Json.obj [], rfl⟩⟩)
      rfl rfl,
   all_lists_first_failure_aborts.2 mEx oracleFailSecond emEx (("bbb").data)
      [(lj1, (("aaa").data))] lj2 [] (PyError.apiError errJson) (by decide) rfl
      (by
        intro p hp
        simp only [List.mem_singleton] at hp
        subst hp
        exact ⟨rfl, ⟨Json.obj [], rfl⟩⟩)
      rfl rfl⟩
